import Mathlib

/-!
Shallow embedding of `topics_app.py`, a Streamlit form that collects a
student's name, register number, roll number and a project topic, validates
the identifiers, checks the topic for near-duplicates against previously
submitted topics, and persists the rows in a spreadsheet table.

Strings are modelled over their character lists; Python's `\d` and
`str.lower` are modelled over ASCII (all string constants in the program are
ASCII). Machine floats in `difflib` ratios are modelled as exact rationals:
for the short strings involved, the comparison `ratio >= 0.5` agrees with
the exact rational comparison.
-/

namespace TopicsApp

set_option maxRecDepth 8000

/-- Configuration constant `REG_PREFIX = "23130910831"` (line 16). -/
def REG_PREFIX : String := "23130910831"

/-- Configuration constant `REG_MAX_LAST = 48` (line 17). -/
def REG_MAX_LAST : Nat := 48

/-- Configuration constant `FORBIDDEN_ROLL_SUFFIX = {"08", "29", "13"}` (line 18). -/
def FORBIDDEN_ROLL_SUFFIX : List String := ["08", "29", "13"]

/-- Model of Python `int()` applied to a string of characters: succeeds on a
non-empty all-digit string, returning its decimal value.  (After the
`\d{13}` full-match gate the argument is always a non-empty digit string,
so the sign/whitespace/underscore forms accepted by `int()` cannot occur.) -/
def charsToNat? (cs : List Char) : Option Nat :=
  if cs ≠ [] ∧ cs.all Char.isDigit then
    some (cs.foldl (fun n c => 10 * n + (c.toNat - 48)) 0)
  else none

/-- Model of `re.fullmatch(r"\d{13}", r)` over ASCII: exactly 13 digits. -/
def fullmatchDigits13 (r : String) : Bool :=
  r.toList.length == 13 && r.toList.all Char.isDigit

/-- Embedding of `validate_regno` (lines 72-83): 13-digit full match, fixed
prefix check, parse of `r[-2:]` via `int`, range check `1 <= last <= 48`. -/
def validate_regno (r : String) : Bool × String :=
  if fullmatchDigits13 r = false then
    (false, "Register number must be exactly 13 digits.")
  else if REG_PREFIX.toList.isPrefixOf r.toList = false then
    (false, "Register must start with 23130910831.")
  else
    match charsToNat? (r.toList.drop (r.toList.length - 2)) with
    | none => (false, "Last two characters of Register number must be digits.")
    | some last =>
      if ¬ (1 ≤ last ∧ last ≤ REG_MAX_LAST) then
        (false, "Last two digits must be between 01 and 48.")
      else (true, "")

/-- Model of `re.fullmatch(r"^23d12(\d{2})$", r, re.I)` (line 86): the whole
string is `2` `3` `d`-case-insensitive `1` `2` and two digits; on success the
captured group (the two trailing digits) is returned. -/
def rollCapture (r : String) : Option String :=
  match r.toList with
  | [c1, c2, c3, c4, c5, c6, c7] =>
    if c1 = '2' ∧ c2 = '3' ∧ (c3 = 'd' ∨ c3 = 'D') ∧ c4 = '1' ∧ c5 = '2'
        ∧ c6.isDigit ∧ c7.isDigit then
      some (String.mk [c6, c7])
    else none
  | _ => none

/-- Embedding of `validate_rollno` (lines 85-92): regex full match, then
rejection of the forbidden suffixes. -/
def validate_rollno (r : String) : Bool × String :=
  match rollCapture r with
  | none =>
    (false, "Roll format must start with 23d12 followed by two digits (e.g. 23d1201).")
  | some suffix =>
    if suffix ∈ FORBIDDEN_ROLL_SUFFIX then
      (false, "Roll suffix " ++ suffix ++ " is reserved (TC students) — pick a different roll suffix.")
    else (true, "")

/-- Model of Python `str.lower` over ASCII: lower-case every character.  (All
topic strings compared by the program are ASCII.) -/
def strLower (s : String) : String := String.mk (s.toList.map Char.toLower)

/-- Configuration constant `SIMILARITY_THRESHOLD = 0.5` (line 15), as an exact
rational. -/
def SIMILARITY_THRESHOLD : ℚ := 1 / 2

/-- Row update of difflib `SequenceMatcher.find_longest_match`'s `j2len`
dynamic program: entry `j` of the new row is the length of the longest
match ending at `a`-position `i` and `b`-position `j`, namely
`prev[j-1] + 1` when `a[i] == b[j]` and `0` otherwise.  (No junk and no
autojunk apply: the compared strings are far shorter than 200 characters.) -/
def lcsRow (b : List Char) (ai : Char) (prev : List Nat) : List Nat :=
  List.zipWith (fun bj p => if ai = bj then p + 1 else 0) b (0 :: prev)

/-- Scan a `j2len` row for its maximum entry, keeping the earliest `b`-index
on ties (difflib updates only on a strictly larger length): returns
`(length, j-end)`. -/
def rowBest (row : List Nat) : Nat × Nat :=
  row.enum.foldl (fun best jk => if best.1 < jk.2 then (jk.2, jk.1) else best) (0, 0)

/-- One outer-loop step of `find_longest_match`: accumulate
`(previous row, best block (i, j, size), next a-index)`; a strictly longer
match ending at `(i, jend)` replaces the best block with the block starting
at `(i + 1 - k, jend + 1 - k)`. -/
def lmStep (b : List Char) (acc : List Nat × (Nat × Nat × Nat) × Nat) (ai : Char) :
    List Nat × (Nat × Nat × Nat) × Nat :=
  let row := lcsRow b ai acc.1
  let rb := rowBest row
  let i := acc.2.2
  let best := acc.2.1
  let best2 := if best.2.2 < rb.1 then (i + 1 - rb.1, rb.2 + 1 - rb.1, rb.1) else best
  (row, best2, i + 1)

/-- Model of `SequenceMatcher.find_longest_match` over the whole strings:
the longest matching block `(i, j, size)`, earliest in `a` then in `b` on
ties. -/
def longestMatch (a b : List Char) : Nat × Nat × Nat :=
  (a.foldl (lmStep b) (List.replicate b.length 0, (0, 0, 0), 0)).2.1

/-- Model of `SequenceMatcher.get_matching_blocks`' total matched size: find
the longest matching block and recurse on the pieces to its left and to its
right (difflib's queue formulation computes the same recursion tree).  Fuel
`a.length + b.length` suffices: each recursive call strictly shrinks the
combined length. -/
def matchBlocksTotal : Nat → List Char → List Char → Nat
  | 0, _, _ => 0
  | fuel + 1, a, b =>
    let m := longestMatch a b
    if m.2.2 = 0 then 0
    else matchBlocksTotal fuel (a.take m.1) (b.take m.2.1) + m.2.2 +
         matchBlocksTotal fuel (a.drop (m.1 + m.2.2)) (b.drop (m.2.1 + m.2.2))

/-- Total size of all matching blocks between two character lists. -/
def matchTotal (a b : List Char) : Nat := matchBlocksTotal (a.length + b.length) a b

/-- Model of `SequenceMatcher.ratio()`: `2 * M / T` where `M` is the total
matched size and `T` the combined length, and `1` when both strings are
empty.  Python computes this in floating point; for the short strings
involved the comparison against `0.5` agrees with the exact rational one. -/
def ratio (a b : String) : ℚ :=
  if a.toList.length + b.toList.length = 0 then 1
  else (2 * matchTotal a.toList b.toList : ℚ) / (a.toList.length + b.toList.length)

/-- Embedding of `is_similar` (lines 29-30):
`SequenceMatcher(None, a.lower(), b.lower()).ratio() >= threshold`. -/
def is_similar (a b : String) : Bool :=
  decide ( SIMILARITY_THRESHOLD ≤ ratio (strLower a) (strLower b))

/-- Model of Python substring containment `needle in hay`. -/
def containsSub (hay needle : List Char) : Bool :=
  (List.range (hay.length + 1)).any (fun i => needle.isPrefixOf (hay.drop i))

/-- Embedding of the `similar_list` loop (lines 231-234): keep, in corpus
order, every existing topic `t` with
`t.lower() == topic.lower() or topic.lower() in t.lower() or t.lower() in topic.lower() or is_similar(topic, t)`. -/
def find_similar (topic : String) (corpus : List String) : List String :=
  corpus.filter (fun t =>
    (strLower t == strLower topic)
      || containsSub (strLower t).toList (strLower topic).toList
      || containsSub (strLower topic).toList (strLower t).toList
      || is_similar topic t)

/-- The similarity-match condition as the specification words it: a corpus
entry matches when the lower-cased strings are equal, one contains the
other, or the similarity ratio reaches the threshold. -/
def matchesSpec (cand t : String) : Prop :=
  strLower t = strLower cand
    ∨ (strLower cand).toList <:+: (strLower t).toList
    ∨ (strLower t).toList <:+: (strLower cand).toList
    ∨ SIMILARITY_THRESHOLD ≤ ratio (strLower cand) (strLower t)

/-- One persisted row of the table, with the program's five columns
`Name, Register Number, Roll Number, Topic, Timestamp`.  The model fixes
this schema; the pandas branches for a missing column or for the legacy
"Topic Title" column name normalise into it on read. -/
structure Row where
  name : String
  regno : String
  rollno : String
  topic : String
  timestamp : String
deriving DecidableEq

/-- Python exceptions that the model distinguishes. -/
inductive PyExn where
  | shutilError : PyExn
  | nameError : String → PyExn
deriving DecidableEq

/-- Embedding of the merge performed by the confirm step (lines 282-295):
when a table was loaded, drop every existing row whose register number
equals the submitting one (the code guards the filter behind an `.any`
check) and append the new row; with no table, the new row alone. -/
def mergeUpsert (existing : Option (List Row)) (df_new : Row) : List Row :=
  match existing with
  | some rows =>
    let rows2 :=
      if rows.any (fun r => r.regno == df_new.regno) then
        rows.filter (fun r => !(r.regno == df_new.regno))
      else rows
    rows2 ++ [df_new]
  | none => [df_new]

/-- Modelled from the spec: `load_sheet_df` is called by the topic and
confirm steps (lines 185, 223, 283) but is defined nowhere in the
repository.  Per §4.3 the load returns the full persisted table, or
empty/none when no backing data exists or it is unreadable; the store state
is the optional table itself. -/
def load_sheet_df (store : Option (List Row)) : Option (List Row) := store

/-- Modelled from the spec: `save_df_to_sheet` is called at line 298 but is
defined nowhere in the repository.  Per §4.3 the save fully overwrites the
backing dataset with the given table and returns a success/failure outcome;
the `ok` argument models that outcome. -/
def save_df_to_sheet (df_final : List Row) (store : Option (List Row)) (ok : Bool) :
    Bool × Option (List Row) :=
  if ok then (true, some df_final) else (false, store)

/-- Embedding of the similarity-corpus construction of the topic step
(lines 221-229): under the fixed five-column schema, the topics of every
loaded row whose register number differs from the submitting one; an empty
corpus when nothing was loaded. -/
def topics_to_check (df_check : Option (List Row)) (regno : String) : List String :=
  match df_check with
  | none => []
  | some rows => (rows.filter (fun r => !(r.regno == regno))).map (fun r => r.topic)

/-- File-system state for the local-file store: the backing file's contents,
whether the backup copy can be written, and the backup folder's contents. -/
structure FS where
  fileData : Option (List Row)
  backupWritable : Bool
  backups : List (List Row)
deriving DecidableEq

/-- Embedding of `backup_file_if_exists` (lines 35-42): when the backing
file exists, create the backup folder and write a timestamped copy of the
file; `backupWritable` models whether `os.makedirs`/`shutil.copy2`
succeeds, and their failure raises out of the function. -/
def backup_file_if_exists (fs : FS) : Except PyExn FS :=
  match fs.fileData with
  | some d =>
    if fs.backupWritable then Except.ok { fs with backups := fs.backups ++ [d] }
    else Except.error PyExn.shutilError
  | none => Except.ok fs

/-- Embedding of the sort at the start of `save_df` (lines 61-67): sort by
the register number parsed as an integer, falling back to the string sort
when some register number fails to parse (the `except` branch). -/
def sortRows (rows : List Row) : List Row :=
  if rows.all (fun r => (charsToNat? r.regno.toList).isSome) then
    rows.mergeSort (fun r s =>
      decide ((charsToNat? r.regno.toList).getD 0 ≤ (charsToNat? s.regno.toList).getD 0))
  else
    rows.mergeSort (fun r s => decide (r.regno ≤ s.regno))

/-- Embedding of `save_df` (lines 60-70): sort, then `backup_file_if_exists()`
with no exception handler — a backup failure propagates and the write is
never reached — then overwrite the backing file with the sorted table. -/
def save_df (df : List Row) (fs : FS) : Except PyExn FS :=
  let df2 := sortRows df
  match backup_file_if_exists fs with
  | Except.error e => Except.error e
  | Except.ok fs2 => Except.ok { fs2 with fileData := some df2 }

/-- The wizard's session state: the current step name and the four held
field values (lines 106-115). -/
structure WizardState where
  step : String
  name : String
  regno : String
  rollno : String
  topic : String
deriving DecidableEq

/-- Embedding of `finish_and_reset` (lines 129-136): set the step to
"details" and clear all four held values. -/
def finish_and_reset (_s : WizardState) : WizardState :=
  { step := "details", name := "", regno := "", rollno := "", topic := "" }

/-- Embedding of the confirm step's save handler (lines 270-305): build the
new row from the held fields and a fresh timestamp, merge it by the upsert,
and hand the merged table to `save_df_to_sheet` (modelled from the spec —
its outcome is the `ok` flag).  On success, show the success and count
messages and run `finish_and_reset`; on failure, show the failure message
and leave the state unchanged. -/
def confirm_save (s : WizardState) (store : Option (List Row)) (timestamp : String)
    (ok : Bool) : WizardState × Option (List Row) × List String :=
  let df_new : Row := ⟨s.name, s.regno, s.rollno, s.topic, timestamp⟩
  let df_final := mergeUpsert (load_sheet_df store) df_new
  let saved := save_df_to_sheet df_final store ok
  if saved.1 then
    (finish_and_reset s, saved.2,
      ["✔️ Your response has been saved successfully!",
       "📊 Total students submitted: " ++ toString df_final.length])
  else
    (s, saved.2, ["Failed to save. Please tell the admin."])

/-- The top-level function names bound by `def` in `topics_app.py`.
Neither `load_sheet_df` nor `save_df_to_sheet` is among them, and neither
is imported (the module imports only streamlit, pandas, os, re, sys,
datetime.datetime, difflib.SequenceMatcher and shutil). -/
def moduleFunctionNames : List String :=
  ["is_similar", "ensure_backup_folder", "backup_file_if_exists",
   "load_existing_df", "save_df", "validate_regno", "validate_rollno",
   "show_submission_count", "goto_topic", "back_to_details", "goto_confirm",
   "finish_and_reset"]

/-- Python name resolution for a module-level call: calling a name bound by
no definition raises `NameError`. -/
def callModuleFunction (n : String) : Except PyExn Unit :=
  if moduleFunctionNames.contains n then Except.ok ()
  else Except.error (PyExn.nameError n)

/-- The store read performed on entering the topic step (line 185):
`df_existing = load_sheet_df()`. -/
def topic_step_store_read : Except PyExn Unit := callModuleFunction "load_sheet_df"

/-- The store write performed by the confirm step's save action (line 298):
`success = save_df_to_sheet(df_final)`. -/
def confirm_step_store_write : Except PyExn Unit := callModuleFunction "save_df_to_sheet"

/-! Helper lemmas. -/

lemma isPrefixOf_true_iff (l1 l2 : List Char) : l1.isPrefixOf l2 = true ↔ l1 <+: l2 := by
  induction l1 generalizing l2 with
  | nil => simp [List.isPrefixOf]
  | cons a t ih =>
    cases l2 with
    | nil => simp [List.isPrefixOf]
    | cons b t2 =>
      rw [List.isPrefixOf, Bool.and_eq_true, beq_iff_eq, ih]
      exact (List.cons_prefix_cons).symm

lemma containsSub_eq_true_iff (hay needle : List Char) :
    containsSub hay needle = true ↔ needle <:+: hay := by
  unfold containsSub
  rw [List.any_eq_true]
  constructor
  · rintro ⟨i, -, hpre⟩
    rw [isPrefixOf_true_iff _ _] at hpre
    obtain ⟨t, ht⟩ := hpre
    exact ⟨hay.take i, t, by rw [List.append_assoc, ht, List.take_append_drop]⟩
  · rintro ⟨s, t, hst⟩
    refine ⟨s.length, List.mem_range.mpr ?_, ?_⟩
    · have : s.length ≤ hay.length := by
        rw [← hst]; simp [List.length_append]
      omega
    · rw [isPrefixOf_true_iff _ _]
      have : hay.drop s.length = needle ++ t := by
        rw [← hst, List.append_assoc, List.drop_left]
      rw [this]
      exact ⟨t, rfl⟩

lemma is_similar_eq_true_iff (a b : String) :
    is_similar a b = true ↔
      (strLower a).toList.length + (strLower b).toList.length ≤
        4 * matchTotal (strLower a).toList (strLower b).toList := by
  unfold is_similar
  rw [decide_eq_true_iff]
  unfold ratio SIMILARITY_THRESHOLD
  set la := (strLower a).toList.length with hla
  set lb := (strLower b).toList.length with hlb
  set M := matchTotal (strLower a).toList (strLower b).toList with hM
  by_cases h0 : la + lb = 0
  · rw [if_pos h0]
    constructor
    · intro _; omega
    · intro _; norm_num
  · rw [if_neg h0]
    have hpos : (0 : ℚ) < (la : ℚ) + (lb : ℚ) := by
      exact_mod_cast Nat.pos_of_ne_zero h0
    rw [div_le_div_iff₀ (by norm_num) hpos]
    constructor
    · intro h
      have h' : ((la + lb : Nat) : ℚ) ≤ ((4 * M : Nat) : ℚ) := by push_cast; linarith
      exact_mod_cast h'
    · intro h
      have h' : ((la + lb : Nat) : ℚ) ≤ ((4 * M : Nat) : ℚ) := by exact_mod_cast h
      push_cast at h'
      linarith

lemma parse_ok_of_fullmatch (r : String) (h : fullmatchDigits13 r = true) :
    (charsToNat? (r.toList.drop (r.toList.length - 2))).isSome = true := by
  unfold fullmatchDigits13 at h
  rw [Bool.and_eq_true, beq_iff_eq] at h
  obtain ⟨hlen, hall⟩ := h
  unfold charsToNat?
  rw [if_pos]
  · rfl
  constructor
  · have : (r.toList.drop (r.toList.length - 2)).length = 2 := by
      rw [List.length_drop]; omega
    intro hnil
    rw [hnil] at this
    simp at this
  · rw [List.all_eq_true] at hall ⊢
    intro c hc
    exact hall c (List.mem_of_mem_drop hc)

/-! Theorems settling the claims. -/

/-- C1: the claim says every storage failure in the wizard flow is caught
and converted to a user-visible message, and in particular that the topic
step's store read and the confirm step's store write complete without
raising an uncaught error.  The code instead calls `load_sheet_df` and
`save_df_to_sheet`, names bound by no definition in the repository, so both
calls raise an uncaught `NameError`. -/
theorem c1_store_calls_raise_nameerror :
    topic_step_store_read = Except.error (PyExn.nameError "load_sheet_df")
    ∧ confirm_step_store_write = Except.error (PyExn.nameError "save_df_to_sheet") := by
  exact ⟨rfl, rfl⟩

/-- C2 counterexample: the claim says "23130910831048" passes, but that
string is 14 characters long (the 11-character prefix followed by "048"),
so the 13-digit full match fails and validation rejects it. -/
theorem c2_counterexample_example_too_long :
    (validate_regno "23130910831048").fst = false
    ∧ "23130910831048".toList.length = 14 := by
  exact ⟨by decide, by decide⟩

/-- C2 amended: `validate_regno s` succeeds exactly when `s` is 13 decimal
digits, starts with the prefix "23130910831", and its final two characters
parse to an integer in `[1, 48]`; every failure carries a non-empty reason
string.  The boundary examples at 13 characters: "2313091083148" (last two
= 48) passes and "2313091083149" (= 49) fails, while the 14-character
strings "23130910831048" and "23130910831049" of the original claim both
fail the 13-digit shape check. -/
theorem c2_validate_regno_characterization :
    (∀ s : String,
      ((validate_regno s).fst = true ↔
        (s.toList.length = 13 ∧ s.toList.all Char.isDigit = true
          ∧ REG_PREFIX.toList <+: s.toList
          ∧ ∃ n : Nat, charsToNat? (s.toList.drop (s.toList.length - 2)) = some n
              ∧ 1 ≤ n ∧ n ≤ 48))
      ∧ ((validate_regno s).fst = false ↔ (validate_regno s).snd ≠ ""))
    ∧ (validate_regno "2313091083148").fst = true
    ∧ (validate_regno "2313091083149").fst = false
    ∧ (validate_regno "23130910831049").fst = false := by
  refine ⟨fun s => ⟨?_, ?_⟩, by decide, by decide, by decide⟩
  · unfold validate_regno
    by_cases h1 : fullmatchDigits13 s = false
    · rw [if_pos h1]
      simp only [Bool.false_eq_true, false_iff]
      rintro ⟨hlen, hall, -⟩
      unfold fullmatchDigits13 at h1
      rw [hall, beq_iff_eq.mpr hlen] at h1
      simp at h1
    · rw [if_neg h1]
      rw [Bool.not_eq_false] at h1
      unfold fullmatchDigits13 at h1
      rw [Bool.and_eq_true, beq_iff_eq] at h1
      obtain ⟨hlen, hall⟩ := h1
      by_cases h2 : ( REG_PREFIX.toList.isPrefixOf s.toList) = false
      · rw [if_pos h2]
        simp only [Bool.false_eq_true, false_iff]
        rintro ⟨-, -, hpre, -⟩
        rw [Bool.eq_false_iff] at h2
        exact h2 ((isPrefixOf_true_iff _ _).mpr hpre)
      · rw [if_neg h2]
        rw [Bool.not_eq_false, isPrefixOf_true_iff _ _] at h2
        rcases hp : charsToNat? (s.toList.drop (s.toList.length - 2)) with _ | n
        · dsimp only
          simp only [Bool.false_eq_true, false_iff]
          rintro ⟨-, -, -, n, hn, -⟩
          exact Option.noConfusion hn
        · dsimp only
          by_cases h3 : 1 ≤ n ∧ n ≤ REG_MAX_LAST
          · rw [if_neg (not_not_intro h3)]
            simp only [true_iff]
            exact ⟨hlen, hall, h2, n, rfl, h3.1, h3.2⟩
          · rw [if_pos h3]
            simp only [Bool.false_eq_true, false_iff]
            rintro ⟨-, -, -, m, hm, hm1, hm2⟩
            injection hm with hm
            exact h3 ⟨hm ▸ hm1, hm ▸ hm2⟩
  · unfold validate_regno
    by_cases h1 : fullmatchDigits13 s = false
    · rw [if_pos h1]; simp
    · rw [if_neg h1]
      by_cases h2 : ( REG_PREFIX.toList.isPrefixOf s.toList) = false
      · rw [if_pos h2]; simp
      · rw [if_neg h2]
        rcases hp : charsToNat? (s.toList.drop (s.toList.length - 2)) with _ | n
        · dsimp only; simp
        · dsimp only
          by_cases h3 : 1 ≤ n ∧ n ≤ REG_MAX_LAST
          · rw [if_neg (not_not_intro h3)]; simp
          · rw [if_pos h3]; simp

/-- C2 witness: the amended characterization evaluated at "2313091083148". -/
theorem c2_validate_regno_characterization_witness :
    (validate_regno "2313091083148").fst = true :=
  c2_validate_regno_characterization.2.1

lemma rollCapture_eq_some_iff (s : String) (suf : String) :
    rollCapture s = some suf ↔
      ∃ c d1 d2 : Char, s.toList = ['2', '3', c, '1', '2', d1, d2]
        ∧ (c = 'd' ∨ c = 'D') ∧ d1.isDigit = true ∧ d2.isDigit = true
        ∧ suf = String.mk [d1, d2] := by
  unfold rollCapture
  split
  · rename_i c1 c2 c3 c4 c5 c6 c7 heq
    split
    · rename_i hc
      obtain ⟨h1, h2, h3, h4, h5, h6, h7⟩ := hc
      constructor
      · intro h
        injection h with h
        exact ⟨c3, c6, c7, by rw [heq, h1, h2, h4, h5], h3, h6, h7, h.symm⟩
      · rintro ⟨c, d1, d2, hs, -, -, -, hsuf⟩
        rw [heq] at hs
        injection hs with e1 hs; injection hs with e2 hs; injection hs with e3 hs
        injection hs with e4 hs; injection hs with e5 hs; injection hs with e6 hs
        injection hs with e7 hs
        rw [hsuf, e6, e7]
    · rename_i hc
      constructor
      · intro h; exact Option.noConfusion h
      · rintro ⟨c, d1, d2, hs, hcd, hd1, hd2, -⟩
        rw [heq] at hs
        injection hs with e1 hs; injection hs with e2 hs; injection hs with e3 hs
        injection hs with e4 hs; injection hs with e5 hs; injection hs with e6 hs
        injection hs with e7 hs
        exact absurd ⟨e1, e2, e3 ▸ hcd, e4, e5, e6 ▸ hd1, e7 ▸ hd2⟩ hc
  · rename_i hno
    constructor
    · intro h; exact Option.noConfusion h
    · rintro ⟨c, d1, d2, hs, -⟩
      exact absurd hs (hno '2' '3' c '1' '2' d1 d2)

/-- C3: `validate_rollno s` succeeds exactly when `s` has the shape `23`,
a case-insensitive `d`, `12`, and two digits, with the two trailing digits
outside the forbidden set {"08", "29", "13"}; for shape-matching strings it
fails exactly when the suffix is forbidden; "23d1208" and "23D1208" both
fail. -/
theorem c3_validate_rollno_characterization :
    (∀ s : String,
      ((validate_rollno s).fst = true ↔
        ∃ c d1 d2 : Char, s.toList = ['2', '3', c, '1', '2', d1, d2]
          ∧ (c = 'd' ∨ c = 'D') ∧ d1.isDigit = true ∧ d2.isDigit = true
          ∧ String.mk [d1, d2] ∉ FORBIDDEN_ROLL_SUFFIX))
    ∧ (∀ c d1 d2 : Char, (c = 'd' ∨ c = 'D') → d1.isDigit = true → d2.isDigit = true →
        ((validate_rollno (String.mk ['2', '3', c, '1', '2', d1, d2])).fst = false ↔
          String.mk [d1, d2] ∈ FORBIDDEN_ROLL_SUFFIX))
    ∧ (validate_rollno "23d1208").fst = false
    ∧ (validate_rollno "23D1208").fst = false := by
  have hmain : ∀ s : String,
      (validate_rollno s).fst = true ↔
        ∃ c d1 d2 : Char, s.toList = ['2', '3', c, '1', '2', d1, d2]
          ∧ (c = 'd' ∨ c = 'D') ∧ d1.isDigit = true ∧ d2.isDigit = true
          ∧ String.mk [d1, d2] ∉ FORBIDDEN_ROLL_SUFFIX := by
    intro s
    unfold validate_rollno
    rcases hcap : rollCapture s with _ | suf
    · dsimp only
      simp only [Bool.false_eq_true, false_iff]
      rintro ⟨c, d1, d2, hs, hcd, hd1, hd2, -⟩
      have : rollCapture s = some (String.mk [d1, d2]) :=
        (rollCapture_eq_some_iff s _).mpr ⟨c, d1, d2, hs, hcd, hd1, hd2, rfl⟩
      rw [hcap] at this
      exact Option.noConfusion this
    · dsimp only
      obtain ⟨c, d1, d2, hs, hcd, hd1, hd2, hsuf⟩ :=
        (rollCapture_eq_some_iff s suf).mp hcap
      by_cases hmem : suf ∈ FORBIDDEN_ROLL_SUFFIX
      · rw [if_pos hmem]
        simp only [Bool.false_eq_true, false_iff]
        rintro ⟨c', d1', d2', hs', -, -, -, hnot⟩
        rw [hs] at hs'
        injection hs' with e1 hs'; injection hs' with e2 hs'
        injection hs' with e3 hs'; injection hs' with e4 hs'
        injection hs' with e5 hs'; injection hs' with e6 hs'
        injection hs' with e7 hs'
        rw [← e6, ← e7, ← hsuf] at hnot
        exact hnot hmem
      · rw [if_neg hmem]
        simp only [true_iff]
        exact ⟨c, d1, d2, hs, hcd, hd1, hd2, hsuf ▸ hmem⟩
  refine ⟨hmain, fun c d1 d2 hcd hd1 hd2 => ?_, by decide, by decide⟩
  constructor
  · intro hfalse
    by_contra hnot
    have : (validate_rollno (String.mk ['2', '3', c, '1', '2', d1, d2])).fst = true :=
      (hmain _).mpr ⟨c, d1, d2, rfl, hcd, hd1, hd2, hnot⟩
    rw [hfalse] at this
    exact Bool.noConfusion this
  · intro hmem
    rw [Bool.eq_false_iff]
    intro htrue
    obtain ⟨c', d1', d2', hs', -, -, -, hnot⟩ := (hmain _).mp htrue
    injection hs' with e1 hs'; injection hs' with e2 hs'
    injection hs' with e3 hs'; injection hs' with e4 hs'
    injection hs' with e5 hs'; injection hs' with e6 hs'
    injection hs' with e7 hs'
    rw [← e6, ← e7] at hnot
    exact hnot hmem

/-- C3 witness: the shape-level equivalence evaluated at the forbidden
suffix "08" with the lower-case letter. -/
theorem c3_validate_rollno_characterization_witness :
    (validate_rollno (String.mk ['2', '3', 'd', '1', '2', '0', '8'])).fst = false ↔
      String.mk ['0', '8'] ∈ FORBIDDEN_ROLL_SUFFIX :=
  c3_validate_rollno_characterization.2.1 'd' '0' '8' (Or.inl rfl) (by decide) (by decide)

/-- C4: `find_similar` keeps, in corpus order, exactly the corpus entries
matching by case-insensitive equality, case-insensitive containment in
either direction, or similarity ratio at least the 0.5 threshold; the
"Photolithography basics" example matches its reordered corpus entry and
the "Quantum computing" example matches nothing. -/
theorem c4_find_similar_characterization :
    (∀ (cand : String) (corpus : List String),
      (∀ t : String, t ∈ find_similar cand corpus ↔ t ∈ corpus ∧ matchesSpec cand t)
      ∧ (find_similar cand corpus).Sublist corpus)
    ∧ find_similar "Photolithography basics" ["Basics of Photolithography"]
        = ["Basics of Photolithography"]
    ∧ find_similar "Quantum computing" ["Organic chemistry"] = [] := by
  refine ⟨fun cand corpus => ⟨fun t => ?_, List.filter_sublist _⟩, ?_, ?_⟩
  · unfold find_similar
    rw [List.mem_filter]
    apply and_congr_right
    intro _
    unfold matchesSpec is_similar
    simp only [Bool.or_eq_true, beq_iff_eq, containsSub_eq_true_iff, decide_eq_true_iff]
    tauto
  · have h1 : is_similar "Photolithography basics" "Basics of Photolithography" = true :=
      (is_similar_eq_true_iff _ _).mpr (by decide)
    unfold find_similar
    rw [List.filter_cons_of_pos (by rw [h1]; simp)]
    rfl
  · have h2 : is_similar "Quantum computing" "Organic chemistry" = false := by
      rw [Bool.eq_false_iff]
      rw [Ne, is_similar_eq_true_iff]
      decide
    unfold find_similar
    rw [List.filter_cons_of_neg]
    · rfl
    · rw [h2]
      decide

lemma filter_mergeUpsert_eq_singleton (rows : List Row) (row : Row) :
    (mergeUpsert (some rows) row).filter (fun r => r.regno == row.regno) = [row] := by
  unfold mergeUpsert
  dsimp only
  have hself : (row.regno == row.regno) = true := beq_self_eq_true _
  have htail : List.filter (fun r => r.regno == row.regno) [row] = [row] := by
    simp [List.filter_cons, hself]
  by_cases h : rows.any (fun r => r.regno == row.regno) = true
  · rw [if_pos h, List.filter_append]
    have h1 : (rows.filter (fun r => !(r.regno == row.regno))).filter
        (fun r => r.regno == row.regno) = [] := by
      rw [List.filter_filter]
      apply List.filter_eq_nil_iff.mpr
      intro a _
      simp
    rw [h1, htail, List.nil_append]
  · rw [if_neg h, List.filter_append]
    have h1 : rows.filter (fun r => r.regno == row.regno) = [] := by
      rw [List.filter_eq_nil_iff]
      intro a ha hpred
      exact h (List.any_eq_true.mpr ⟨a, ha, hpred⟩)
    rw [h1, htail, List.nil_append]

/-- C5: after the merge of the confirm step (load, drop every row with the
incoming register number, append the new row), the rows carrying that
register number are exactly the new row; in particular two successive saves
for the same register number R leave exactly one row for R, holding the
second submission. -/
theorem c5_upsert_single_row :
    (∀ (table : List Row) (row : Row),
      (mergeUpsert (some table) row).filter (fun r => r.regno == row.regno) = [row])
    ∧ (∀ (table : List Row) (n1 rl1 t1 ts1 n2 rl2 t2 ts2 R : String),
      (mergeUpsert (some (mergeUpsert (some table) ⟨n1, R, rl1, t1, ts1⟩))
          ⟨n2, R, rl2, t2, ts2⟩).filter (fun r => r.regno == R)
        = [⟨n2, R, rl2, t2, ts2⟩]) := by
  refine ⟨filter_mergeUpsert_eq_singleton, fun table n1 rl1 t1 ts1 n2 rl2 t2 ts2 R => ?_⟩
  exact filter_mergeUpsert_eq_singleton
    (mergeUpsert (some table) ⟨n1, R, rl1, t1, ts1⟩) ⟨n2, R, rl2, t2, ts2⟩

/-- C6 counterexample: the claimed scenario uses register number
"23130910831007", but that string is 14 characters long, so
`validate_regno` rejects it and the details step never passes. -/
theorem c6_counterexample_register_rejected :
    (validate_regno "23130910831007").fst = false
    ∧ (validate_regno "23130910831007").snd
        = "Register number must be exactly 13 digits." := by
  exact ⟨by decide, by decide⟩

/-- C6 amended: with the 13-character register number "2313091083107"
(last two = 07) in place of the claim's 14-character "23130910831007", the
scenario holds: both validators pass, the topic finds no similar entry in
an empty corpus, and the save stores exactly one row carrying that register
number and the fresh timestamp, with the total count 1 = 0 + 1. -/
theorem c6_end_to_end_scenario :
    ∀ ts : String,
      (validate_regno "2313091083107").fst = true
      ∧ (validate_rollno "23d1201").fst = true
      ∧ find_similar "Edge detection in images"
          (topics_to_check (load_sheet_df none) "2313091083107") = []
      ∧ confirm_save ⟨"confirm", "Asha", "2313091083107", "23d1201",
            "Edge detection in images"⟩ none ts true
          = (⟨"details", "", "", "", ""⟩,
             some [⟨"Asha", "2313091083107", "23d1201", "Edge detection in images", ts⟩],
             ["✔️ Your response has been saved successfully!",
              "📊 Total students submitted: 1"])
      ∧ (mergeUpsert (load_sheet_df (some []))
            ⟨"Asha", "2313091083107", "23d1201", "Edge detection in images", ts⟩).length
          = 0 + 1 := by
  intro ts
  refine ⟨by decide, by decide, rfl, ?_, rfl⟩
  have hlen : (mergeUpsert (load_sheet_df none)
      (⟨"Asha", "2313091083107", "23d1201", "Edge detection in images", ts⟩ : Row)).length
        = 1 := rfl
  unfold confirm_save
  dsimp only
  rw [hlen]
  rfl

/-- C7 counterexample: the claim says a backup failure does not block the
save, but `save_df` calls `backup_file_if_exists()` outside any handler:
with an existing backing file and an unwritable backup location, the save
raises and never overwrites the file — no successful outcome exists. -/
theorem c7_counterexample_backup_blocks_save :
    save_df [⟨"B", "2313091083102", "23d1202", "T2", "ts2"⟩]
        ⟨some [⟨"A", "2313091083101", "23d1201", "T1", "ts1"⟩], false, []⟩
      = Except.error PyExn.shutilError
    ∧ ¬ ∃ fs2 : FS,
        save_df [⟨"B", "2313091083102", "23d1202", "T2", "ts2"⟩]
            ⟨some [⟨"A", "2313091083101", "23d1201", "T1", "ts1"⟩], false, []⟩
          = Except.ok fs2 := by
  refine ⟨rfl, ?_⟩
  rintro ⟨fs2, h⟩
  rw [show save_df [⟨"B", "2313091083102", "23d1202", "T2", "ts2"⟩]
      ⟨some [⟨"A", "2313091083101", "23d1201", "T1", "ts1"⟩], false, []⟩
      = Except.error PyExn.shutilError from rfl] at h
  exact Except.noConfusion h

/-- C7 amended: when the backing file exists and the backup copy can be
written, a copy of the previous contents is appended to the backup folder
and the overwrite proceeds; when no backing file exists the save just
overwrites; but when the backing file exists and the backup copy fails,
the exception propagates out of `save_df` and the overwrite does not
happen (backup failure blocks the save). -/
theorem c7_backup_before_save :
    ∀ (df : List Row) (fs : FS),
      (fs.backupWritable = true → ∀ d : List Row, fs.fileData = some d →
        save_df df fs = Except.ok ⟨some (sortRows df), true, fs.backups ++ [d]⟩)
      ∧ (fs.fileData = none →
        save_df df fs = Except.ok ⟨some (sortRows df), fs.backupWritable, fs.backups⟩)
      ∧ (fs.backupWritable = false → ∀ d : List Row, fs.fileData = some d →
        save_df df fs = Except.error PyExn.shutilError) := by
  intro df fs
  obtain ⟨fd, bw, bks⟩ := fs
  refine ⟨?_, ?_, ?_⟩
  · rintro hbw d hfd
    cases hfd
    cases hbw
    rfl
  · rintro hfd
    cases hfd
    rfl
  · rintro hbw d hfd
    cases hfd
    cases hbw
    rfl

/-- C7 witness: the amended behavior evaluated on a one-row file with a
writable backup location. -/
theorem c7_backup_before_save_witness :
    save_df [⟨"B", "2313091083102", "23d1202", "T2", "ts2"⟩]
        ⟨some [⟨"A", "2313091083101", "23d1201", "T1", "ts1"⟩], true, []⟩
      = Except.ok ⟨some (sortRows [⟨"B", "2313091083102", "23d1202", "T2", "ts2"⟩]),
          true, [] ++ [[⟨"A", "2313091083101", "23d1201", "T1", "ts1"⟩]]⟩ :=
  (c7_backup_before_save [⟨"B", "2313091083102", "23d1202", "T2", "ts2"⟩]
      ⟨some [⟨"A", "2313091083101", "23d1201", "T1", "ts1"⟩], true, []⟩).1
    rfl [⟨"A", "2313091083101", "23d1201", "T1", "ts1"⟩] rfl

/-- C8: the similarity corpus built by the topic step contains exactly the
topics of loaded rows whose register number differs from the submitting
one — never the submitter's own prior topic — and is empty when nothing
was loaded. -/
theorem c8_corpus_excludes_own_rows :
    (∀ (rows : List Row) (regno : String) (t : String),
      t ∈ topics_to_check (load_sheet_df (some rows)) regno ↔
        ∃ r : Row, r ∈ rows ∧ ¬ r.regno = regno ∧ r.topic = t)
    ∧ ∀ regno : String, topics_to_check (load_sheet_df none) regno = [] := by
  refine ⟨fun rows regno t => ?_, fun regno => rfl⟩
  unfold topics_to_check load_sheet_df
  dsimp only
  rw [List.mem_map]
  constructor
  · rintro ⟨r, hr, ht⟩
    rw [List.mem_filter] at hr
    refine ⟨r, hr.1, ?_, ht⟩
    have := hr.2
    simp only [Bool.not_eq_true', beq_eq_false_iff_ne] at this
    exact this
  · rintro ⟨r, hr, hne, ht⟩
    refine ⟨r, List.mem_filter.mpr ⟨hr, ?_⟩, ht⟩
    simp only [Bool.not_eq_true', beq_eq_false_iff_ne]
    exact hne

/-- C8 witness: the characterization evaluated on a two-row table where one
row belongs to the submitter. -/
theorem c8_corpus_excludes_own_rows_witness :
    "T2" ∈ topics_to_check (load_sheet_df (some
        [⟨"A", "2313091083101", "23d1201", "T1", "ts1"⟩,
         ⟨"B", "2313091083102", "23d1202", "T2", "ts2"⟩])) "2313091083101" ↔
      ∃ r : Row, r ∈ [(⟨"A", "2313091083101", "23d1201", "T1", "ts1"⟩ : Row),
          ⟨"B", "2313091083102", "23d1202", "T2", "ts2"⟩]
        ∧ ¬ r.regno = "2313091083101" ∧ r.topic = "T2" :=
  c8_corpus_excludes_own_rows.1
    [⟨"A", "2313091083101", "23d1201", "T1", "ts1"⟩,
     ⟨"B", "2313091083102", "23d1202", "T2", "ts2"⟩] "2313091083101" "T2"

/-- C9 counterexample: the claim says a successful save moves the wizard to
the `done` state, but `finish_and_reset` sets the step straight to
"details": at a concrete confirm state the post-save step is "details",
not "done". -/
theorem c9_counterexample_success_skips_done :
    (confirm_save ⟨"confirm", "Asha", "2313091083107", "23d1201",
        "Edge detection in images"⟩ none "2026-10-12 00:00:00" true).1.step = "details"
    ∧ ¬ (confirm_save ⟨"confirm", "Asha", "2313091083107", "23d1201",
        "Edge detection in images"⟩ none "2026-10-12 00:00:00" true).1.step = "done" := by
  exact ⟨rfl, by decide⟩

/-- C9 amended: on a successful save the wizard resets directly to the
`details` state with all four held values cleared (the `done` state is
skipped); on a failed save it stays in its current state with its values
and the store unchanged and surfaces the failure message. -/
theorem c9_confirm_save_transitions :
    ∀ (s : WizardState) (store : Option (List Row)) (ts : String),
      (confirm_save s store ts true).1 = ⟨"details", "", "", "", ""⟩
      ∧ (confirm_save s store ts false).1 = s
      ∧ (confirm_save s store ts false).2.1 = store
      ∧ "Failed to save. Please tell the admin." ∈ (confirm_save s store ts false).2.2 := by
  intro s store ts
  exact ⟨rfl, rfl, rfl, List.mem_singleton.mpr rfl⟩

/-- C10: `validate_regno` is total with an unreachable digit-parse error
branch: whenever the 13-digit full match succeeds, parsing the final two
characters as an integer succeeds, so the reason string of the parse
branch is never returned. -/
theorem c10_parse_branch_unreachable :
    ∀ r : String,
      (fullmatchDigits13 r = true →
        (charsToNat? (r.toList.drop (r.toList.length - 2))).isSome = true)
      ∧ (validate_regno r).snd ≠ "Last two characters of Register number must be digits." := by
  intro r
  refine ⟨parse_ok_of_fullmatch r, ?_⟩
  unfold validate_regno
  by_cases h1 : fullmatchDigits13 r = false
  · rw [if_pos h1]
    decide
  · rw [if_neg h1]
    by_cases h2 : ( REG_PREFIX.toList.isPrefixOf r.toList) = false
    · rw [if_pos h2]
      decide
    · rw [if_neg h2]
      rcases hp : charsToNat? (r.toList.drop (r.toList.length - 2)) with _ | n
      · exfalso
        have h1' : fullmatchDigits13 r = true := by rwa [Bool.not_eq_false] at h1
        have := parse_ok_of_fullmatch r h1'
        rw [hp] at this
        exact Bool.noConfusion this
      · dsimp only
        by_cases h3 : 1 ≤ n ∧ n ≤ REG_MAX_LAST
        · rw [if_neg (not_not_intro h3)]
          decide
        · rw [if_pos h3]
          decide

/-- C10 witness: the parse of the final two characters succeeds on the
13-digit input "2313091083107". -/
theorem c10_parse_branch_unreachable_witness :
    (charsToNat? (("2313091083107" : String).toList.drop
        (("2313091083107" : String).toList.length - 2))).isSome = true :=
  (c10_parse_branch_unreachable "2313091083107").1 (by decide)

end TopicsApp
